import Mathlib

/-
Verification of the orchestration layer of the oral-practice service
(src/orchestrator/main.py).  Text is modelled as lists of characters;
the Python json module is modelled by an executable JSON parser; every
endpoint the claims touch is embedded as a pure function whose inputs
include the backend responses, so that backend behaviour (success,
garbage text, transport failure) can be quantified over.
-/

namespace Orch

/-- Text is modelled as a list of characters. -/
abbrev LC := List Char

/-- Whitespace characters recognised by the Python str.strip method
(ASCII portion; the claims only exercise ASCII whitespace). -/
def pyWs (c : Char) : Bool :=
  c = ' ' || c = '\t' || c = '\n' || c = '\r' || c = '\x0b' || c = '\x0c'

/-- Python str.strip: drop whitespace from both ends. -/
def pyStrip (s : LC) : LC :=
  ((s.dropWhile pyWs).reverse.dropWhile pyWs).reverse

/-- Python str.lower (ASCII; the lowered strings in the code are ASCII). -/
def pyLower (s : LC) : LC := s.map Char.toLower

/-- Python substring test, needle in haystack. -/
def isSub (needle hay : LC) : Bool := decide (needle <:+: hay)

/-- Python s.split(sep, 1): text before and after the first occurrence of
sep; if sep is absent the whole text is the first component. -/
def splitFirst (sep : LC) : LC → LC × LC
  | [] => ([], [])
  | c :: rest =>
    if sep.isPrefixOf (c :: rest) then ([], (c :: rest).drop sep.length)
    else
      let p := splitFirst sep rest
      (c :: p.1, p.2)

/-- Auxiliary for splitlines: accumulates the current line (reversed);
line terminators are the newline, carriage return and their pair, and a
trailing terminator produces no empty final line, as in Python. -/
def splitlinesAux : LC → LC → List LC
  | [], acc => [acc.reverse]
  | '\r' :: '\n' :: rest, acc =>
    if rest = [] then [acc.reverse] else acc.reverse :: splitlinesAux rest []
  | '\n' :: rest, acc =>
    if rest = [] then [acc.reverse] else acc.reverse :: splitlinesAux rest []
  | '\r' :: rest, acc =>
    if rest = [] then [acc.reverse] else acc.reverse :: splitlinesAux rest []
  | c :: rest, acc => splitlinesAux rest (c :: acc)

/-- Python str.splitlines. -/
def pySplitlines (s : LC) : List LC :=
  if s = [] then [] else splitlinesAux s []

/-- The expression resp.splitlines()[0] if resp else "" from the source. -/
def firstLine (s : LC) : LC :=
  if s = [] then [] else (pySplitlines s).headD []

/-- Index of the first occurrence of a character (Python str.find). -/
def pyFind (c : Char) (s : LC) : Option Nat := s.findIdx? (· = c)

/-- Index of the last occurrence of a character (Python str.rfind). -/
def pyRfind (c : Char) (s : LC) : Option Nat :=
  match (s.reverse.findIdx? (· = c)) with
  | some k => some (s.length - 1 - k)
  | none => none

/-- Split a character list at the first closing square bracket: the part
before it and the part after it. -/
def splitAtR : LC → Option (LC × LC)
  | [] => none
  | c :: rest =>
    if c = ']' then some ([], rest)
    else
      match splitAtR rest with
      | some p => some (c :: p.1, p.2)
      | none => none

/-- Fuelled scan for the regular expression pattern of a bracketed label:
an opening bracket, one or more characters that are not a closing
bracket, then a closing bracket; successive matches do not overlap,
exactly as re.findall scans the text in the source. -/
def findLabelsF : Nat → LC → List LC
  | 0, _ => []
  | _, [] => []
  | fuel + 1, c :: rest =>
    if c = '[' then
      match splitAtR rest with
      | some p => if p.1 = [] then findLabelsF fuel rest else p.1 :: findLabelsF fuel p.2
      | none => []
    else findLabelsF fuel rest

/-- All bracketed labels of a sentence, in order of occurrence. -/
def findLabels (s : LC) : List LC := findLabelsF s.length s

/-- JSON values as produced by json.loads: numbers carry the rational
value and whether the literal was an integer. -/
inductive Json where
  | null : Json
  | bool : Bool → Json
  | num : Rat → Bool → Json
  | str : LC → Json
  | arr : List Json → Json
  | obj : List (LC × Json) → Json

/-- JSON whitespace. -/
def jsonWs (c : Char) : Bool :=
  c = ' ' || c = '\t' || c = '\n' || c = '\r'

/-- Skip JSON whitespace. -/
def skipWs (s : LC) : LC := s.dropWhile jsonWs

/-- Hexadecimal digit value. -/
def hexVal (c : Char) : Option Nat :=
  if '0' ≤ c ∧ c ≤ '9' then some (c.toNat - '0'.toNat)
  else if 'a' ≤ c ∧ c ≤ 'f' then some (c.toNat - 'a'.toNat + 10)
  else if 'A' ≤ c ∧ c ≤ 'F' then some (c.toNat - 'A'.toNat + 10)
  else none

/-- Body of a JSON string after the opening quote: returns the decoded
characters and the rest of the input after the closing quote.  Raw
control characters are rejected, escapes are decoded, as json.loads
does. -/
def parseStrAux : Nat → LC → LC → Option (LC × LC)
  | 0, _, _ => none
  | _, [], _ => none
  | fuel + 1, c :: rest, acc =>
    if c = '"' then some (acc.reverse, rest)
    else if c = '\\' then
      match rest with
      | [] => none
      | e :: rest2 =>
        if e = '"' then parseStrAux fuel rest2 ('"' :: acc)
        else if e = '\\' then parseStrAux fuel rest2 ('\\' :: acc)
        else if e = '/' then parseStrAux fuel rest2 ('/' :: acc)
        else if e = 'n' then parseStrAux fuel rest2 ('\n' :: acc)
        else if e = 't' then parseStrAux fuel rest2 ('\t' :: acc)
        else if e = 'r' then parseStrAux fuel rest2 ('\r' :: acc)
        else if e = 'b' then parseStrAux fuel rest2 ('\x08' :: acc)
        else if e = 'f' then parseStrAux fuel rest2 ('\x0c' :: acc)
        else if e = 'u' then
          match rest2 with
          | h1 :: h2 :: h3 :: h4 :: rest3 =>
            match hexVal h1, hexVal h2, hexVal h3, hexVal h4 with
            | some a, some b, some cc, some d =>
              parseStrAux fuel rest3 (Char.ofNat (((a * 16 + b) * 16 + cc) * 16 + d) :: acc)
            | _, _, _, _ => none
          | _ => none
        else none
    else if c.toNat < 32 then none
    else parseStrAux fuel rest (c :: acc)

/-- Natural number denoted by a list of decimal digits. -/
def digitsToNat (ds : LC) : Nat :=
  ds.foldl (fun acc c => acc * 10 + (c.toNat - '0'.toNat)) 0

/-- JSON number literal: optional minus, integer part without leading
zeros, optional fraction, optional exponent; yields the rational value
and whether the literal was an integer. -/
def parseNum (s : LC) : Option (Json × LC) :=
  let (neg, s1) := match s with
    | '-' :: r => (true, r)
    | _ => (false, s)
  let ip := s1.takeWhile Char.isDigit
  let r1 := s1.dropWhile Char.isDigit
  if ip = [] then none
  else if 1 < ip.length ∧ ip.headD '0' = '0' then none
  else
    let intPart : Rat := (digitsToNat ip : Nat)
    let fracStep : Option (Rat × LC × Bool) :=
      match r1 with
      | '.' :: r2 =>
        let fd := r2.takeWhile Char.isDigit
        let r3 := r2.dropWhile Char.isDigit
        if fd = [] then none
        else some (intPart + (digitsToNat fd : Rat) / ((10 : Rat) ^ fd.length), r3, false)
      | _ => some (intPart, r1, true)
    match fracStep with
    | none => none
    | some (v1, r3, isInt1) =>
      let expStep : Option (Rat × LC × Bool) :=
        match r3 with
        | e :: r4 =>
          if e = 'e' ∨ e = 'E' then
            let (eneg, r5) := match r4 with
              | '-' :: r6 => (true, r6)
              | '+' :: r6 => (false, r6)
              | _ => (false, r4)
            let ed := r5.takeWhile Char.isDigit
            let r6 := r5.dropWhile Char.isDigit
            if ed = [] then none
            else
              let m : Rat := (10 : Rat) ^ digitsToNat ed
              some (if eneg then v1 / m else v1 * m, r6, false)
          else some (v1, r3, isInt1)
        | [] => some (v1, r3, isInt1)
      match expStep with
      | none => none
      | some (v2, r7, isInt2) =>
        some (Json.num (if neg then -v2 else v2) isInt2, r7)

mutual

/-- Parse one JSON value after skipping whitespace. -/
def parseVal : Nat → LC → Option (Json × LC)
  | 0, _ => none
  | fuel + 1, s =>
    match skipWs s with
    | [] => none
    | c :: rest =>
      if c = '{' then parseObjBody fuel (skipWs rest)
      else if c = '[' then parseArrBody fuel (skipWs rest)
      else if c = '"' then
        match parseStrAux (rest.length + 1) rest [] with
        | some p => some (Json.str p.1, p.2)
        | none => none
      else if c = 't' then
        if ("rue".toList).isPrefixOf rest then some (Json.bool true, rest.drop 3) else none
      else if c = 'f' then
        if ("alse".toList).isPrefixOf rest then some (Json.bool false, rest.drop 4) else none
      else if c = 'n' then
        if ("ull".toList).isPrefixOf rest then some (Json.null, rest.drop 3) else none
      else parseNum (c :: rest)

/-- Object body after the opening brace and whitespace. -/
def parseObjBody : Nat → LC → Option (Json × LC)
  | 0, _ => none
  | fuel + 1, s =>
    match s with
    | '}' :: rest => some (Json.obj [], rest)
    | _ => parseMembers fuel s []

/-- Members of an object: key, colon, value, then comma or closing
brace. -/
def parseMembers : Nat → LC → List (LC × Json) → Option (Json × LC)
  | 0, _, _ => none
  | fuel + 1, s, acc =>
    match skipWs s with
    | '"' :: rest =>
      match parseStrAux (rest.length + 1) rest [] with
      | none => none
      | some kp =>
        match skipWs kp.2 with
        | ':' :: r2 =>
          match parseVal fuel r2 with
          | none => none
          | some vp =>
            match skipWs vp.2 with
            | ',' :: r4 => parseMembers fuel r4 (acc ++ [(kp.1, vp.1)])
            | '}' :: r4 => some (Json.obj (acc ++ [(kp.1, vp.1)]), r4)
            | _ => none
        | _ => none
    | _ => none

/-- Array body after the opening bracket and whitespace. -/
def parseArrBody : Nat → LC → Option (Json × LC)
  | 0, _ => none
  | fuel + 1, s =>
    match s with
    | ']' :: rest => some (Json.arr [], rest)
    | _ => parseElems fuel s []

/-- Elements of an array: value, then comma or closing bracket. -/
def parseElems : Nat → LC → List Json → Option (Json × LC)
  | 0, _, _ => none
  | fuel + 1, s, acc =>
    match parseVal fuel s with
    | none => none
    | some vp =>
      match skipWs vp.2 with
      | ',' :: r2 => parseElems fuel r2 (acc ++ [vp.1])
      | ']' :: r2 => some (Json.arr (acc ++ [vp.1]), r2)
      | _ => none

end

/-- Model of json.loads: parse one JSON document; trailing text that is
not whitespace is an error, as json.loads raises on it. -/
def jparse (s : LC) : Option Json :=
  match parseVal (4 * s.length + 8) s with
  | some p => if skipWs p.2 = [] then some p.1 else none
  | none => none

/-- Python truthiness of a value produced by json.loads. -/
def pyTruthy : Json → Bool
  | .null => false
  | .bool b => b
  | .num q _ => q ≠ 0
  | .str s => s ≠ []
  | .arr xs => !xs.isEmpty
  | .obj kvs => !kvs.isEmpty

/-- The Python expression a or b. -/
def pyOr (a b : Json) : Json := if pyTruthy a then a else b

/-- The Python expression a or b on strings, where an empty string is
falsy. -/
def pyOrStr (a b : LC) : LC := if a = [] then b else a

/-- Lookup in a parsed JSON object; with duplicate keys the last
binding wins, as in a Python dict built by json.loads. -/
def dictFind : List (LC × Json) → LC → Option Json
  | [], _ => none
  | kv :: rest, key =>
    match dictFind rest key with
    | some w => some w
    | none => if kv.1 = key then some kv.2 else none

/-- Python dict.get with a default. -/
def dictGetD (kvs : List (LC × Json)) (key : LC) (d : Json) : Json :=
  (dictFind kvs key).getD d

/-- The Python expression v.strip(): defined only when v is a string;
on any other value the attribute access raises, modelled as none. -/
def pyStripIfStr : Json → Option LC
  | .str s => some (pyStrip s)
  | _ => none

/-- Decimal digits of a natural number. -/
def natDigits (n : Nat) : LC := Nat.toDigits 10 n

/-- Decimal form of an integer. -/
def intRepr (i : Int) : LC :=
  if i < 0 then '-' :: natDigits i.natAbs else natDigits i.natAbs

mutual

/-- Structural size of a JSON value, used as recursion fuel. -/
def jsize : Json → Nat
  | .arr xs => jsizeList xs + 1
  | .obj kvs => jsizeKVs kvs + 1
  | _ => 1

/-- Structural size of a list of JSON values. -/
def jsizeList : List Json → Nat
  | [] => 0
  | x :: xs => jsize x + jsizeList xs

/-- Structural size of the bindings of a JSON object. -/
def jsizeKVs : List (LC × Json) → Nat
  | [] => 0
  | kv :: rest => jsize kv.2 + jsizeKVs rest

end

/-- Fuelled Python repr of a json.loads value (non-integer numbers and
string escaping are rendered approximately; no theorem exercises those
corners). -/
def pyReprF : Nat → Json → LC
  | 0, _ => []
  | _, .null => "None".toList
  | _, .bool true => "True".toList
  | _, .bool false => "False".toList
  | _, .num q isInt =>
    if isInt then intRepr q.num
    else intRepr q.num ++ '/' :: natDigits q.den
  | _, .str s => Char.ofNat 39 :: s ++ [Char.ofNat 39]
  | fuel + 1, .arr xs =>
    '[' :: (List.intercalate (", ".toList) (xs.map (pyReprF fuel))) ++ [']']
  | fuel + 1, .obj kvs =>
    '\x7b' :: (List.intercalate (", ".toList)
      (kvs.map (fun p => (Char.ofNat 39 :: p.1 ++ [Char.ofNat 39]) ++ ": ".toList ++ pyReprF fuel p.2))) ++ ['\x7d']

/-- Python str applied to a json.loads value: strings map to
themselves, everything else to its repr. -/
def pyStr : Json → LC
  | .str s => s
  | j => pyReprF (jsize j) j

/-- The fence handling of the theme resolver: if the stripped text
opens with a code fence, drop every line whose stripped form opens
with a fence marker and rejoin with newlines. -/
def stripFences (raw : LC) : LC :=
  if ("```".toList).isPrefixOf (pyStrip raw) then
    List.intercalate ("\n".toList)
      ((pySplitlines raw).filter (fun line => ¬ ("```".toList).isPrefixOf (pyStrip line)))
  else raw

/-- The substring of the text from the first opening brace to the last
closing brace inclusive, when the last closing brace is strictly after
the first opening brace, as in the theme resolver. -/
def braceSlice (raw : LC) : Option LC :=
  match pyFind '\x7b' raw, pyRfind '\x7d' raw with
  | some i, some j => if i < j then some ((raw.drop i).take (j + 1 - i)) else none
  | _, _ => none

/-- The structured-response extraction of the theme resolver, lines
539 to 555 of the source: strip code fences, attempt a direct parse,
then attempt the first-brace-to-last-brace substring, and yield the
empty object on failure. -/
def extract_json (raw0 : LC) : Json :=
  let raw := stripFences raw0
  match jparse raw with
  | some v => v
  | none =>
    match braceSlice raw with
    | some sub => (jparse sub).getD (Json.obj [])
    | none => Json.obj []

/-- The backend chosen by the dispatch, together with the model name
passed to the adapter. -/
inductive BackendChoice where
  | deepseek : LC → BackendChoice
  | ollama : LC → BackendChoice
deriving DecidableEq

/-- The shipped default of the DEFAULT_MODEL environment variable. -/
def defaultModelCfg : LC := "deepseek-chat".toList

/-- The shipped default of the OLLAMA_MODEL environment variable. -/
def ollamaModelCfg : LC := "mistral".toList

/-- The expression model or DEFAULT_MODEL or OLLAMA_MODEL of the
dispatcher, with an absent model hint modelled as none. -/
def chooseModel (hint : Option LC) (defaultModel ollamaModel : LC) : LC :=
  pyOrStr (pyOrStr (hint.getD []) defaultModel) ollamaModel

/-- The backend dispatch of the query helper: the chosen model name is
lowered and a deepseek prefix routes to the remote adapter, anything
else to the local adapter, both with the chosen model. -/
def queryLlmDispatch (hint : Option LC) (defaultModel ollamaModel : LC) : BackendChoice :=
  let chosen := chooseModel hint defaultModel ollamaModel
  if ("deepseek".toList).isPrefixOf (pyLower chosen) then .deepseek chosen
  else .ollama chosen

/-- The outbound payload built by the remote adapter. -/
structure DsPayload where
  model : LC
  temperature : Rat
  topP : Rat
  stream : Bool
deriving DecidableEq

/-- The value returned by the remote adapter: response content and the
context token. -/
structure DsResult where
  response : Json
  context : Option (List Int)

/-- Python dict.get with a default on the sampling options. -/
def lookupQ : List (LC × Rat) → LC → Rat → Rat
  | [], _, d => d
  | kv :: rest, key, d => if kv.1 = key then kv.2 else lookupQ rest key d

/-- The content extraction of the remote adapter applied to the parsed
backend reply: choices defaulted through the or expression, first
element, message, content; none models an exception. -/
def dsContent (reply : Json) : Option Json :=
  match reply with
  | .obj kvs =>
    match pyOr (dictGetD kvs ("choices".toList) Json.null) (Json.arr [Json.obj []]) with
    | .arr xs =>
      match xs.headD (Json.obj []) with
      | .obj ckvs =>
        match dictGetD ckvs ("message".toList) (Json.obj []) with
        | .obj mkvs => some (dictGetD mkvs ("content".toList) (Json.str []))
        | _ => none
      | _ => none
    | _ => none
  | _ => none

/-- The remote adapter: without a credential it fails with status 500
before any payload is built or any call is issued; with a credential it
builds the payload with temperature and top_p drawn from the sampling
options with defaults 0.6 and 0.9, and returns the extracted content
with a null context token. -/
def queryDeepseek (apiKey : LC) (model : Option LC) (options : List (LC × Rat))
    (deepseekModel : LC) (reply : Json) : Except Nat (DsPayload × DsResult) :=
  if apiKey = [] then .error 500
  else
    let payload : DsPayload :=
      ⟨pyOrStr (model.getD []) deepseekModel,
       lookupQ options ("temperature".toList) (6 / 10),
       lookupQ options ("top_p".toList) (9 / 10),
       false⟩
    match dsContent reply with
    | none => .error 500
    | some content => .ok (payload, ⟨content, none⟩)

/-- Session modes. -/
inductive SessMode where
  | fluency : SessMode
  | review : SessMode
deriving DecidableEq

/-- One recorded turn of a session. -/
structure Turn where
  prompt : LC
  response : LC
deriving DecidableEq

/-- A stored session. -/
structure Session where
  userId : Option LC
  mode : SessMode
  history : List Turn
  context : Option (List Int)
deriving DecidableEq

/-- The global session map. -/
abbrev Store := List (LC × Session)

/-- Lookup of a session by identifier. -/
def storeFind : Store → LC → Option Session
  | [], _ => none
  | kv :: rest, sid => if kv.1 = sid then some kv.2 else storeFind rest sid

/-- Write a session under an identifier, replacing any previous
binding. -/
def storeSet : Store → LC → Session → Store
  | [], sid, s => [(sid, s)]
  | kv :: rest, sid, s =>
    if kv.1 = sid then (kv.1, s) :: rest else kv :: storeSet rest sid s

/-- The session summary returned by the session endpoints. -/
structure SessionInfo where
  sessionId : LC
  mode : SessMode
  turns : Nat
deriving DecidableEq

/-- The create endpoint, with the generated random identifier passed in
explicitly: stores a fresh session and reports zero turns. -/
def createSession (st : Store) (sid : LC) (userId : Option LC) (mode : SessMode) :
    SessionInfo × Store :=
  (⟨sid, mode, 0⟩, storeSet st sid ⟨userId, mode, [], none⟩)

/-- The get endpoint: status 404 for an unknown identifier. -/
def getSessionInfo (st : Store) (sid : LC) : Except Nat SessionInfo :=
  match storeFind st sid with
  | none => .error 404
  | some s => .ok ⟨sid, s.mode, s.history.length⟩

/-- The update endpoint: status 404 for an unknown identifier,
otherwise the mode is replaced and the turn count reported. -/
def updateSession (st : Store) (sid : LC) (mode : SessMode) :
    Except Nat SessionInfo × Store :=
  match storeFind st sid with
  | none => (.error 404, st)
  | some s =>
    let s1 : Session := { s with mode := mode }
    (.ok ⟨sid, mode, s1.history.length⟩, storeSet st sid s1)

/-- The response of the session chat endpoint. -/
structure SessionChatRes where
  sessionId : LC
  mode : SessMode
  response : LC
  turns : Nat
deriving DecidableEq

/-- A successful local-generation reply: response text and context
token. -/
structure OllamaResp where
  response : LC
  context : Option (List Int)
deriving DecidableEq

/-- The session chat endpoint with the backend outcome as input:
unknown session is 404; a backend failure is 502 and, the exception
being raised before any session field is assigned, the store is
untouched; on success the context token is replaced and the turn
appended. -/
def sessionChat (st : Store) (sid : LC) (prompt : LC)
    (backend : Except Unit OllamaResp) : Except Nat SessionChatRes × Store :=
  match storeFind st sid with
  | none => (.error 404, st)
  | some s =>
    match backend with
    | .error _ => (.error 502, st)
    | .ok data =>
      let s1 : Session :=
        { s with context := data.context, history := s.history ++ [⟨prompt, data.response⟩] }
      (.ok ⟨sid, s.mode, data.response, s1.history.length⟩, storeSet st sid s1)

/-- Language normalisation shared by the exercise endpoints: lower the
code, and anything other than en or zh becomes en. -/
def normLang (language : LC) : LC :=
  let l := pyLower language
  if l = "en".toList ∨ l = "zh".toList then l else "en".toList

/-- A phrase card as built by the theme resolver; the difficulty field
keeps the raw value taken from the anchor entry. -/
structure PhraseCardL where
  phrase : LC
  translation : Option LC
  cue : LC
  difficulty : Json

/-- The difficulty-indexed fallback cue table of the theme resolver. -/
def fallbackCue (difficulty : LC) : LC :=
  if difficulty = "easy".toList then "Delivery: slow and polite".toList
  else if difficulty = "medium".toList then "Delivery: clear and upbeat".toList
  else if difficulty = "hard".toList then "Delivery: brisk and concise".toList
  else if difficulty = "expert".toList then "Delivery: confident and fast".toList
  else "Delivery: clear and polite".toList

/-- One iteration of the anchor loop of the theme resolver: none means
the entry is skipped (empty phrase or a phrase containing the word
phrase), some is the card kept, and error models an exception raised
by an attribute access on a non-string or non-dict value, which the
endpoint re-raises. -/
def cardStep (item : Json) : Except Unit (Option PhraseCardL) :=
  match item with
  | .obj kvs =>
    match pyStripIfStr (pyOr (dictGetD kvs ("phrase".toList) Json.null) (Json.str [])) with
    | none => .error ()
    | some phrase =>
      if phrase = [] ∨ isSub ("phrase".toList) (pyLower phrase) then .ok none
      else
        match pyStripIfStr (pyOr (dictGetD kvs ("cue".toList) Json.null) (Json.str [])) with
        | none => .error ()
        | some cue0 =>
          match pyStripIfStr (pyOr (dictGetD kvs ("difficulty".toList) Json.null) (Json.str [])) with
          | none => .error ()
          | some diffRaw =>
            let difficulty := pyLower diffRaw
            let cue :=
              if cue0 = [] ∨ isSub ("context hint".toList) (pyLower cue0)
                  ∨ isSub ("hint".toList) (pyLower cue0) then
                fallbackCue difficulty
              else cue0
            .ok (some ⟨phrase, none, cue, dictGetD kvs ("difficulty".toList) Json.null⟩)
  | _ => .error ()

/-- The anchor loop of the theme resolver over the already-truncated
anchor list, accumulating kept cards in order. -/
def buildCards : List Json → List PhraseCardL → Except Unit (List PhraseCardL)
  | [], acc => .ok acc
  | item :: rest, acc =>
    match cardStep item with
    | .error _ => .error ()
    | .ok none => buildCards rest acc
    | .ok (some c) => buildCards rest (acc ++ [c])

/-- Python slicing with an upper bound followed by iteration: defined
for lists and strings (a string slices to its characters), and a
TypeError on anything else is modelled as none. -/
def pySliceIter (j : Json) (n : Nat) : Option (List Json) :=
  match j with
  | .arr xs => some (xs.take n)
  | .str s => some ((s.take n).map (fun c => Json.str [c]))
  | _ => none

/-- The theme endpoint response. -/
structure ThemeRes where
  language : LC
  theme : LC
  phrase_cards : List PhraseCardL
  intent : LC

/-- The theme endpoint with both backend outcomes as inputs: a failed
intent call is 502; a failed anchor call or an exception inside the
anchor processing propagates (modelled as 500); otherwise the anchor
text goes through the or-default, the extraction, the anchors lookup,
slicing to count, and the card loop, and the response carries the
normalised language. -/
def resolveTheme (language theme : LC) (count : Nat)
    (intentResp : Except Unit LC) (anchorResp : Except Unit LC) : Except Nat ThemeRes :=
  match intentResp with
  | .error _ => .error 502
  | .ok intent =>
    match anchorResp with
    | .error _ => .error 500
    | .ok t =>
      match extract_json (pyOrStr t ("\x7b\x7d".toList)) with
      | .obj kvs =>
        match pySliceIter (dictGetD kvs ("anchors".toList) (Json.arr [])) count with
        | none => .error 500
        | some items =>
          match buildCards items [] with
          | .error _ => .error 500
          | .ok cards => .ok ⟨normLang language, theme, cards, intent⟩
      | _ => .error 500

/-- The shadow start response. -/
structure ShadowRes where
  sentence : LC
  cue : Option LC
deriving DecidableEq

/-- The expression line.split(colon, 1)[1].strip() of the shadow start
endpoint; the guard guarantees a colon is present. -/
def afterColonStrip (line : LC) : LC :=
  pyStrip ((line.dropWhile (· ≠ ':')).drop 1)

/-- The shadow start endpoint applied to the backend outcome: transport
failure is 502; otherwise the stripped text is scanned for the
Sentence and Cue markers, and without them the whole text is the
sentence with no cue. -/
def shadowStart (resp : Except Unit LC) : Except Nat ShadowRes :=
  match resp with
  | .error _ => .error 502
  | .ok t =>
    let rt := pyStrip t
    if isSub ("Sentence:".toList) rt then
      let res := (pySplitlines rt).foldl
        (fun (acc : LC × Option LC) line =>
          let acc1 :=
            if ("sentence:".toList).isPrefixOf (pyLower line) then (afterColonStrip line, acc.2)
            else acc
          if ("cue:".toList).isPrefixOf (pyLower line) then (acc1.1, some (afterColonStrip line))
          else acc1)
        (rt, none)
      .ok ⟨res.1, res.2⟩
    else if isSub ("Cue:".toList) rt then
      let parts := splitFirst ("Cue:".toList) rt
      .ok ⟨pyStrip parts.1, some (pyStrip parts.2)⟩
    else .ok ⟨rt, none⟩

/-- The shadow feedback prompt: the source assigns the language
variable the constant zh and never consults the request target
language, so the prompt is the Chinese comparison prompt for every
request. -/
def shadowFeedbackPrompt (reference transcript targetLanguage : LC) : LC :=
  "参考句子: ".toList ++ reference ++ "\n用户转写: ".toList ++ transcript
    ++ "\n".toList
    ++ ("对比参考句与转写，只指出词汇/语法/语义不一致之处；如果无差异，明确说明“朗读正确，无明显错误”。"
        ++ "不要建议替换正确的词或添加新词，不要口语化改写。"
        ++ "仅额外给一条发声建议（发音/节奏/重音），避免冗长。精简回答。").toList

/-- A substitution slot. -/
structure SubSlot where
  label : LC
  options : List LC
deriving DecidableEq

/-- The slot lines block of the substitution feedback prompt. -/
def slotLines (slots : List SubSlot) : LC :=
  List.intercalate ("\n".toList)
    (slots.map (fun s =>
      "- ".toList ++ s.label ++ ": ".toList ++ List.intercalate (", ".toList) s.options))

/-- The substitution feedback prompt, composed in English or, when the
normalised target language is zh, in Chinese. -/
def substitutionFeedbackPrompt (base transcript : LC) (slots : List SubSlot)
    (targetLanguage : LC) : LC :=
  let lang := normLang targetLanguage
  if lang = "zh".toList then
    "基准句: ".toList ++ base ++ "\n学习者转写: ".toList ++ transcript
      ++ "\n可替换槽位:\n".toList ++ slotLines slots ++ "\n".toList
      ++ ("仅根据给定槽位检查：是否使用了提供的选项并保持时态语法？不要引入槽位之外的新词。"
          ++ "用中文给2条简短改进建议，并给出一个使用不同已提供选项的示例句。").toList
  else
    "Base sentence: ".toList ++ base ++ "\nLearner transcript: ".toList ++ transcript
      ++ "\nSubstitution slots:\n".toList ++ slotLines slots ++ "\n".toList
      ++ ("Check against the slots only: did the learner use the provided options and keep tense/grammar? "
          ++ "Do not suggest new words outside the options. "
          ++ "Give 2 short bullet fixes (slot usage or grammar) and propose one next variant using different provided options.").toList

/-- The scaffold lines block of the expansion feedback prompt. -/
def scaffoldLines (scaffolds : List LC) : LC :=
  List.intercalate ("\n".toList) (scaffolds.map (fun s => "- ".toList ++ s))

/-- The expansion feedback prompt: the English base prompt, with one
extra line appended when the normalised target language is zh. -/
def expansionFeedbackPrompt (seed transcript : LC) (scaffolds : List LC)
    (targetLanguage : LC) : LC :=
  let lang := normLang targetLanguage
  let basePrompt :=
    "Seed idea: ".toList ++ seed ++ "\nLearner transcript: ".toList ++ transcript
      ++ "\nExpansion goals:\n".toList ++ scaffoldLines scaffolds ++ "\n".toList
      ++ ("Judge if the learner expanded beyond the seed with clear connectors and "
          ++ "added detail. Give 3 concise bullet notes: 1 strength, 2 fixes "
          ++ "(connectors, coherence, grammar). Then offer one improved variant in "
          ++ "natural spoken English (14-22 words) following the goals.").toList
  if lang = "zh".toList then
    basePrompt
      ++ ("\nReturn the feedback bullets in Chinese. The improved example line should stay in English.").toList
  else basePrompt

/-- The difficulty normalisation shared by the drill starters: an
absent or empty difficulty falls back to medium, then the string is
lowered. -/
def normDiff (difficulty : Option LC) : LC :=
  pyLower (pyOrStr (difficulty.getD []) ("medium".toList))

/-- The slot count table of the substitution starter: easy 1, medium
2, hard 3, expert 4, anything else 2. -/
def slotCountOfDiff (difficulty : Option LC) : Nat :=
  let d := normDiff difficulty
  if d = "easy".toList then 1
  else if d = "medium".toList then 2
  else if d = "hard".toList then 3
  else if d = "expert".toList then 4
  else 2

/-- The substitution start response. -/
structure SubRes where
  base_sentence : LC
  slots : List SubSlot
deriving DecidableEq

/-- The iterable obtained from the slots value of the parsed payload:
a list iterates its elements, a dict its keys, a string its
characters; iterating anything else raises, modelled as none. -/
def slotsIterable (j : Json) : Option (List Json) :=
  match j with
  | .arr xs => some xs
  | .obj kvs => some (kvs.map (fun kv => Json.str kv.1))
  | .str s => some (s.map (fun c => Json.str [c]))
  | _ => none

/-- The slot loop of the substitution starter: label through the or
chain, options through the or default, appended when the options are a
list and the label truthy; an attribute access on a non-dict element
raises, and the error carries the slots appended so far, as the
mutated list keeps them. -/
def buildSlots : List Json → List SubSlot → Except (List SubSlot) (List SubSlot)
  | [], acc => .ok acc
  | x :: rest, acc =>
    match x with
    | .obj kvs =>
      let label := pyOr (dictGetD kvs ("label".toList) Json.null)
        (pyOr (dictGetD kvs ("type".toList) Json.null) (Json.str []))
      let opts := pyOr (dictGetD kvs ("options".toList) Json.null) (Json.arr [])
      match pyTruthy label, opts with
      | true, .arr os => buildSlots rest (acc ++ [⟨pyStr label, os.map pyStr⟩])
      | _, _ => buildSlots rest acc
    | _ => .error acc

/-- One generation attempt of the substitution starter: the response
text is stripped and parsed; on any exception inside the try block the
base sentence becomes the first line of the stripped text and the
slots are whatever the loop had appended. -/
def parseAttempt (t : LC) : LC × List SubSlot :=
  let rt := pyStrip t
  match jparse rt with
  | some (.obj kvs) =>
    match pyStripIfStr (dictGetD kvs ("base_sentence".toList) (Json.str [])) with
    | none => (firstLine rt, [])
    | some base =>
      match slotsIterable (dictGetD kvs ("slots".toList) (Json.arr [])) with
      | none => (firstLine rt, [])
      | some elems =>
        match buildSlots elems [] with
        | .ok slots => (base, slots)
        | .error partialSlots => (firstLine rt, partialSlots)
  | some _ => (firstLine rt, [])
  | none => (firstLine rt, [])

/-- The loop exit test of the substitution starter: the bracketed
labels of the base sentence, the slots and the configured count all
agree in number. -/
def attemptValid (n : Nat) (t : LC) : Bool :=
  let p := parseAttempt t
  ((findLabels p.1).length == p.2.length) && (p.2.length == n)

/-- The fixed options attached to a manufactured fallback slot. -/
def defaultOptions : List LC :=
  ["option1".toList, "option2".toList, "option3".toList]

/-- A manufactured slot label. -/
def mkLabel (i : Nat) : LC := "slot".toList ++ natDigits i

/-- The slot-completion loop of the fallback: for each label, append a
placeholder slot when no slot with that label is present yet. -/
def addMissing (labels : List LC) (slots : List SubSlot) : List SubSlot :=
  labels.foldl
    (fun acc lbl =>
      if acc.any (fun s => s.label = lbl) then acc else acc ++ [⟨lbl, defaultOptions⟩])
    slots

/-- One step of the placeholder-completion loop of the fallback:
append a bracketed label unless it already occurs in the sentence. -/
def bracketAppend (acc lbl : LC) : LC :=
  if isSub ('[' :: (lbl ++ [']'])) acc then acc
  else acc ++ (' ' :: '[' :: (lbl ++ [']']))

/-- The deterministic fallback of the substitution starter, applied to
the base sentence and slots of the last attempt: reuse the bracket
labels found, or manufacture slot1 to slotN; default the sentence when
empty; complete and truncate the slots; then force-append missing
bracket placeholders. -/
def subFallback (n : Nat) (b : LC) (slots : List SubSlot) : SubRes :=
  let found := findLabels b
  let labels := if found = [] then (List.range n).map (fun i => mkLabel (i + 1)) else found
  let b1 := if b = [] then "I need a [slot1] right now.".toList else b
  let s1 := (addMissing (labels.take n) slots).take n
  let b2 := labels.foldl bracketAppend b1
  ⟨b2, s1⟩

/-- The substitution start flow with the configured slot count and the
two backend outcomes as inputs: a transport failure surfaces as 502; a
validated attempt is returned as is; otherwise the fallback is applied
to the second attempt. -/
def subCore (n : Nat) (r1 r2 : Except Unit LC) : Except Nat SubRes :=
  match r1 with
  | .error _ => .error 502
  | .ok t1 =>
    if attemptValid n t1 then .ok ⟨(parseAttempt t1).1, (parseAttempt t1).2⟩
    else
      match r2 with
      | .error _ => .error 502
      | .ok t2 =>
        if attemptValid n t2 then .ok ⟨(parseAttempt t2).1, (parseAttempt t2).2⟩
        else .ok (subFallback n (parseAttempt t2).1 (parseAttempt t2).2)

/-- The substitution start endpoint: the flow above at the slot count
determined by the request difficulty. -/
def substitutionStart (difficulty : Option LC) (r1 r2 : Except Unit LC) : Except Nat SubRes :=
  subCore (slotCountOfDiff difficulty) r1 r2

/-- The scaffold count table of the expansion starter: easy 2, medium
3, hard 4, expert 4, anything else 3. -/
def scaffoldCountOfDiff (difficulty : Option LC) : Nat :=
  let d := normDiff difficulty
  if d = "easy".toList then 2
  else if d = "medium".toList then 3
  else if d = "hard".toList then 4
  else if d = "expert".toList then 4
  else 3

/-- The fixed fallback scaffold pool of the expansion starter. -/
def expFallbackScaffolds : List LC :=
  ["Add when/where it happened".toList,
   "Add a cause with because".toList,
   "Add what you did next with so".toList]

/-- The default padding pool of the expansion starter. -/
def expDefaults : List LC :=
  ["Add who you were with".toList,
   "Add a reason with because".toList,
   "Add a result with so".toList,
   "Add feeling/tone with although".toList]

/-- The try block of the expansion starter: parse the response text,
read the seed through the or chain and strip it, slice the scaffolds
to the configured count and keep the stripped non-empty entries; none
models any exception inside the block. -/
def expansionParse (n : Nat) (t : LC) : Option (LC × List LC) :=
  match jparse t with
  | some (.obj kvs) =>
    match pyStripIfStr (pyOr (dictGetD kvs ("seed".toList) Json.null) (Json.str [])) with
    | none => none
    | some seed =>
      match pySliceIter (dictGetD kvs ("scaffolds".toList) (Json.arr [])) n with
      | none => none
      | some xs =>
        some (seed, (xs.map (fun j => pyStrip (pyStr j))).filter (fun s => s ≠ []))
  | some _ => none
  | none => none

/-- The expansion start flow with the configured scaffold count and
the backend outcome as input: any failure, transport included, is
absorbed into the fixed fallback; an empty seed is replaced; a short
scaffold list is padded from the default pool, skipping entries
already present, until the count is reached. -/
def expansionCore (n : Nat) (resp : Except Unit LC) : LC × List LC :=
  let p :=
    match resp with
    | .error _ => ("I missed my train this morning.".toList, expFallbackScaffolds.take n)
    | .ok t =>
      match expansionParse n t with
      | some q => q
      | none => ("I missed my train this morning.".toList, expFallbackScaffolds.take n)
  let seed := if p.1 = [] then "I need to leave early today.".toList else p.1
  let scaffolds :=
    if p.2.length < n then
      expDefaults.foldl
        (fun acc item =>
          if n ≤ acc.length then acc
          else if item ∈ acc then acc else acc ++ [item])
        p.2
    else p.2
  (seed, scaffolds)

/-- The expansion start endpoint: the flow above at the scaffold count
determined by the request difficulty. -/
def expansionStart (difficulty : Option LC) (resp : Except Unit LC) : LC × List LC :=
  expansionCore (scaffoldCountOfDiff difficulty) resp

theorem slotCount_cases (d : Option LC) :
    slotCountOfDiff d = 1 ∨ slotCountOfDiff d = 2 ∨ slotCountOfDiff d = 3 ∨ slotCountOfDiff d = 4 := by
  unfold slotCountOfDiff
  dsimp only
  split_ifs <;> simp

theorem slotCount_pos (d : Option LC) : 1 ≤ slotCountOfDiff d := by
  rcases slotCount_cases d with h | h | h | h <;> omega

theorem scaffoldCount_cases (d : Option LC) :
    scaffoldCountOfDiff d = 2 ∨ scaffoldCountOfDiff d = 3 ∨ scaffoldCountOfDiff d = 4 := by
  unfold scaffoldCountOfDiff
  dsimp only
  split_ifs <;> simp

theorem findLabelsF_no_lbrack {b : LC} (hb : '[' ∉ b) : ∀ fuel, findLabelsF fuel b = [] := by
  induction b with
  | nil => intro fuel; cases fuel <;> rfl
  | cons x xs ih =>
    intro fuel
    rw [List.mem_cons, not_or] at hb
    cases fuel with
    | zero => rfl
    | succ f =>
      have hx : ¬ (x = '[') := fun h => hb.1 h.symm
      simp only [findLabelsF, if_neg hx]
      exact ih hb.2 f

theorem findLabels_no_lbrack {b : LC} (hb : '[' ∉ b) : findLabels b = [] :=
  findLabelsF_no_lbrack hb _

theorem findLabelsF_append {b : LC} (hb : '[' ∉ b) :
    ∀ (fuel : Nat) (c : LC), findLabelsF (b.length + fuel) (b ++ c) = findLabelsF fuel c := by
  induction b with
  | nil =>
    intro fuel c
    rw [List.length_nil, Nat.zero_add, List.nil_append]
  | cons x xs ih =>
    intro fuel c
    rw [List.mem_cons, not_or] at hb
    have hx : ¬ (x = '[') := fun h => hb.1 h.symm
    have hl : (x :: xs).length + fuel = (xs.length + fuel) + 1 := by
      simp [List.length_cons]; omega
    rw [hl, List.cons_append]
    simp only [findLabelsF, if_neg hx]
    exact ih hb.2 fuel c

theorem findLabels_append {b : LC} (hb : '[' ∉ b) (c : LC) :
    findLabels (b ++ c) = findLabels c := by
  unfold findLabels
  rw [List.length_append]
  exact findLabelsF_append hb c.length c

theorem infix_lbrack_append {b : LC} (hb : '[' ∉ b) (m c : LC) :
    ('[' :: m <:+: b ++ c) ↔ ('[' :: m <:+: c) := by
  induction b with
  | nil => simp
  | cons x xs ih =>
    rw [List.mem_cons, not_or] at hb
    rw [List.cons_append, List.infix_cons_iff]
    constructor
    · rintro (hpre | hinf)
      · rw [List.cons_prefix_cons] at hpre
        exact absurd hpre.1 hb.1
      · exact (ih hb.2).mp hinf
    · intro h
      exact Or.inr ((ih hb.2).mpr h)

theorem isSub_lbrack_append {b : LC} (hb : '[' ∉ b) (m c : LC) :
    isSub ('[' :: m) (b ++ c) = isSub ('[' :: m) c := by
  unfold isSub
  exact decide_eq_decide.mpr (infix_lbrack_append hb m c)

theorem foldl_bracketAppend_shift {b : LC} (hb : '[' ∉ b) :
    ∀ (ls : List LC) (acc : LC),
      List.foldl bracketAppend (b ++ acc) ls = b ++ List.foldl bracketAppend acc ls := by
  intro ls
  induction ls with
  | nil => intro acc; rfl
  | cons lbl rest ih =>
    intro acc
    simp only [List.foldl_cons]
    unfold bracketAppend
    rw [isSub_lbrack_append hb]
    by_cases h : isSub ('[' :: (lbl ++ [']'])) acc = true
    · rw [if_pos h, if_pos h]
      exact ih acc
    · rw [if_neg h, if_neg h, List.append_assoc]
      exact ih (acc ++ (' ' :: '[' :: (lbl ++ [']'])))

theorem foldl_bracketAppend_length :
    ∀ (ls : List LC) (acc : LC), acc.length ≤ (List.foldl bracketAppend acc ls).length := by
  intro ls
  induction ls with
  | nil => intro acc; simp
  | cons lbl rest ih =>
    intro acc
    simp only [List.foldl_cons]
    refine le_trans ?_ (ih (bracketAppend acc lbl))
    unfold bracketAppend
    split
    · exact le_refl _
    · simp [List.length_append]

theorem parseAttempt_jnone {t : LC} (h : jparse (pyStrip t) = none) :
    parseAttempt t = (firstLine (pyStrip t), []) := by
  simp [parseAttempt, h]

theorem subFallback_clean (k : Nat) (b : LC) (hb : '[' ∉ b) (hbnil : b ≠ []) :
    subFallback k b [] =
      ⟨b ++ List.foldl bracketAppend [] ((List.range k).map (fun i => mkLabel (i + 1))),
       (addMissing (((List.range k).map (fun i => mkLabel (i + 1))).take k) []).take k⟩ := by
  have hsh := foldl_bracketAppend_shift hb ((List.range k).map (fun i => mkLabel (i + 1))) []
  rw [List.append_nil] at hsh
  unfold subFallback
  rw [findLabels_no_lbrack hb]
  simp only [if_neg hbnil]
  simp [hsh]

theorem fallbackCue_ne_nil (d : LC) : fallbackCue d ≠ [] := by
  unfold fallbackCue
  repeat' split
  all_goals decide

theorem cardStep_good {item : Json} {c : PhraseCardL} (h : cardStep item = .ok (some c)) :
    c.phrase ≠ [] ∧ isSub ("phrase".toList) (pyLower c.phrase) = false ∧ c.cue ≠ [] := by
  unfold cardStep at h
  split at h
  case h_2 => exact absurd h (by simp)
  case h_1 item kvs =>
    split at h
    · exact absurd h (by simp)
    case h_2 phrase hph =>
      split at h
      · exact absurd h (by simp)
      case isFalse hfilter =>
        split at h
        · exact absurd h (by simp)
        case h_2 cue0 hcue0 =>
          split at h
          · exact absurd h (by simp)
          case h_2 diffRaw hdiff =>
            rw [not_or] at hfilter
            simp only [Except.ok.injEq, Option.some.injEq] at h
            subst h
            refine ⟨hfilter.1, by simpa using hfilter.2, ?_⟩
            split
            · exact fallbackCue_ne_nil _
            case isFalse hc =>
              rw [not_or] at hc
              exact hc.1

theorem buildCards_sound :
    ∀ (items : List Json) (acc cards : List PhraseCardL),
      buildCards items acc = .ok cards →
      cards.length ≤ acc.length + items.length ∧
      ∀ c ∈ cards, c ∈ acc ∨
        (c.phrase ≠ [] ∧ isSub ("phrase".toList) (pyLower c.phrase) = false ∧ c.cue ≠ []) := by
  intro items
  induction items with
  | nil =>
    intro acc cards h
    simp only [buildCards, Except.ok.injEq] at h
    subst h
    exact ⟨by simp, fun c hc => Or.inl hc⟩
  | cons item rest ih =>
    intro acc cards h
    unfold buildCards at h
    split at h
    · exact absurd h (by simp)
    case h_2 =>
      have h2 := ih acc cards h
      refine ⟨?_, h2.2⟩
      have := h2.1
      simp only [List.length_cons]
      omega
    case h_3 c0 hstep =>
      have := ih (acc ++ [c0]) cards h
      constructor
      · have h1 := this.1
        simp [List.length_append] at h1 ⊢
        omega
      · intro c hc
        rcases this.2 c hc with hmem | hgood
        · rcases List.mem_append.mp hmem with hmem2 | hmem2
          · exact Or.inl hmem2
          · have : c = c0 := by simpa using hmem2
            subst this
            exact Or.inr (cardStep_good hstep)
        · exact Or.inr hgood

theorem normLang_idem (s : LC) : normLang (normLang s) = normLang s := by
  by_cases h1 : pyLower s = "en".toList
  · rw [show normLang s = "en".toList from by simp [normLang, h1]]
    decide
  · by_cases h2 : pyLower s = "zh".toList
    · rw [show normLang s = "zh".toList from by simp [normLang, h2]]
      decide
    · rw [show normLang s = "en".toList from by
        simp only [normLang]
        rw [if_neg (by rw [not_or]; exact ⟨h1, h2⟩)]]
      decide

/-- Claim C3, counterexample: with the shipped configuration, where
DEFAULT_MODEL is deepseek-chat, an absent model hint dispatches to the
remote adapter, not to the local adapter with the default local model
as the claim states. -/
theorem claim3_counterexample :
    queryLlmDispatch none defaultModelCfg ollamaModelCfg ≠ BackendChoice.ollama ollamaModelCfg ∧
    queryLlmDispatch none defaultModelCfg ollamaModelCfg = BackendChoice.deepseek defaultModelCfg := by
  constructor
  · decide
  · decide

/-- Claim C3, amended: dispatch is a pure function of the chosen model
name; a non-empty hint with a case-insensitive deepseek prefix goes to
the remote adapter and any other non-empty hint to the local adapter,
in both cases carrying the hint itself; an absent hint behaves exactly
like an empty one, falling back to the configured DEFAULT_MODEL and
then OLLAMA_MODEL, so under the shipped defaults an absent hint
dispatches to the remote adapter with deepseek-chat. -/
theorem claim3_dispatch (hint : LC) (dm om : LC) (hne : hint ≠ []) :
    (("deepseek".toList).isPrefixOf (pyLower hint) = true →
      queryLlmDispatch (some hint) dm om = BackendChoice.deepseek hint) ∧
    (("deepseek".toList).isPrefixOf (pyLower hint) = false →
      queryLlmDispatch (some hint) dm om = BackendChoice.ollama hint) ∧
    (∀ dm2 om2 : LC, queryLlmDispatch none dm2 om2 = queryLlmDispatch (some []) dm2 om2) ∧
    queryLlmDispatch none defaultModelCfg ollamaModelCfg = BackendChoice.deepseek defaultModelCfg := by
  have hch : chooseModel (some hint) dm om = hint := by
    simp [chooseModel, pyOrStr, hne]
  refine ⟨?_, ?_, ?_, ?_⟩
  · intro hp
    simp only [queryLlmDispatch, hch]
    rw [if_pos hp]
  · intro hp
    simp only [queryLlmDispatch, hch]
    rw [if_neg (fun hc => by rw [hp] at hc; exact Bool.false_ne_true hc)]
  · intro dm2 om2
    rfl
  · decide

/-- Claim C3, witness at concrete inputs. -/
theorem claim3_dispatch_witness :
    (("llama3".toList : LC) ≠ []) ∧
    queryLlmDispatch (some ("llama3".toList)) defaultModelCfg ollamaModelCfg
      = BackendChoice.ollama ("llama3".toList) ∧
    queryLlmDispatch (some ("DeepSeek-R1".toList)) defaultModelCfg ollamaModelCfg
      = BackendChoice.deepseek ("DeepSeek-R1".toList) :=
  ⟨by decide,
   (claim3_dispatch ("llama3".toList) defaultModelCfg ollamaModelCfg (by decide)).2.1 (by decide),
   (claim3_dispatch ("DeepSeek-R1".toList) defaultModelCfg ollamaModelCfg (by decide)).1 (by decide)⟩

/-- Claim C4: the structured-response extraction strips code fences,
then tries a direct parse, then the first-brace-to-last-brace
substring, and yields the empty structure on failure: fenced JSON and
JSON wrapped in prose both yield the embedded object, and non-JSON
text yields the empty structure. -/
theorem claim4_extract_json :
    extract_json ("```json\n\x7b\"a\":1\x7d\n```".toList)
      = Json.obj [("a".toList, Json.num 1 true)] ∧
    extract_json ("Sure! \x7b\"a\":1\x7d Hope that helps.".toList)
      = Json.obj [("a".toList, Json.num 1 true)] ∧
    extract_json ("not json at all".toList) = Json.obj [] :=
  ⟨rfl, rfl, rfl⟩

/-- Claim C5: creating a session in fluency mode, recording three chat
turns, then reading it reports three turns in fluency mode; switching
the mode to review then reading reports review with the turn count
still three. -/
theorem claim5_session_roundtrip (p1 p2 p3 r1 r2 r3 : LC) (c1 c2 c3 : Option (List Int)) :
    let sid := "s1".toList
    let st1 := (createSession [] sid none SessMode.fluency).2
    let st2 := (sessionChat st1 sid p1 (.ok ⟨r1, c1⟩)).2
    let st3 := (sessionChat st2 sid p2 (.ok ⟨r2, c2⟩)).2
    let st4 := (sessionChat st3 sid p3 (.ok ⟨r3, c3⟩)).2
    getSessionInfo st4 sid = .ok ⟨sid, SessMode.fluency, 3⟩ ∧
    (updateSession st4 sid SessMode.review).1 = .ok ⟨sid, SessMode.review, 3⟩ ∧
    getSessionInfo (updateSession st4 sid SessMode.review).2 sid
      = .ok ⟨sid, SessMode.review, 3⟩ :=
  ⟨rfl, rfl, rfl⟩

/-- Claim C6: for a session identifier absent from the store, the get
and the mode update both fail with the 404 session-not-found error,
and neither of them, nor a chat against the unknown identifier,
modifies the store. -/
theorem claim6_unknown_session (st : Store) (sid : LC) (mode : SessMode) (prompt : LC)
    (backend : Except Unit OllamaResp) (h : storeFind st sid = none) :
    getSessionInfo st sid = .error 404 ∧
    updateSession st sid mode = (.error 404, st) ∧
    sessionChat st sid prompt backend = (.error 404, st) := by
  refine ⟨?_, ?_, ?_⟩ <;> simp [getSessionInfo, updateSession, sessionChat, h]

/-- Claim C6, witness at a concrete store and identifier. -/
theorem claim6_unknown_session_witness :
    storeFind [("a".toList, ⟨none, SessMode.fluency, [], none⟩)] ("b".toList) = none ∧
    getSessionInfo [("a".toList, ⟨none, SessMode.fluency, [], none⟩)] ("b".toList) = .error 404 ∧
    updateSession [("a".toList, ⟨none, SessMode.fluency, [], none⟩)] ("b".toList) SessMode.review
      = (.error 404, [("a".toList, ⟨none, SessMode.fluency, [], none⟩)]) :=
  ⟨by decide,
   (claim6_unknown_session _ _ SessMode.review [] (.error ()) (by decide)).1,
   (claim6_unknown_session _ _ SessMode.review [] (.error ()) (by decide)).2.1⟩

/-- Claim C9: the remote adapter without a configured credential fails
with status 500 before any payload is built or call issued; with a
credential the payload carries temperature and top_p from the sampling
options with defaults 0.6 and 0.9, and the result carries a null
context token. -/
theorem claim9_deepseek (k : LC) (m : Option LC) (dm : LC) (r : Json)
    (res : DsPayload × DsResult) (q1 q2 : Rat) (hk : k ≠ []) :
    (∀ (m2 : Option LC) (o2 : List (LC × Rat)) (dm2 : LC) (r2 : Json),
      queryDeepseek [] m2 o2 dm2 r2 = .error 500) ∧
    (queryDeepseek k m [] dm r = .ok res →
      res.1.temperature = 6 / 10 ∧ res.1.topP = 9 / 10 ∧ res.2.context = none) ∧
    (queryDeepseek k m [("temperature".toList, q1), ("top_p".toList, q2)] dm r = .ok res →
      res.1.temperature = q1 ∧ res.1.topP = q2 ∧ res.2.context = none) := by
  refine ⟨?_, ?_, ?_⟩
  · intro m2 o2 dm2 r2
    simp [queryDeepseek]
  · intro h
    unfold queryDeepseek at h
    rw [if_neg hk] at h
    cases hds : dsContent r with
    | none => rw [hds] at h; exact absurd h (by simp)
    | some content =>
      rw [hds] at h
      simp only [Except.ok.injEq] at h
      subst h
      exact ⟨rfl, rfl, rfl⟩
  · intro h
    unfold queryDeepseek at h
    rw [if_neg hk] at h
    cases hds : dsContent r with
    | none => rw [hds] at h; exact absurd h (by simp)
    | some content =>
      rw [hds] at h
      simp only [Except.ok.injEq] at h
      subst h
      refine ⟨?_, ?_, rfl⟩
      · simp [lookupQ]
      · simp [lookupQ]

/-- Claim C9, witness at a concrete credential, reply and options. -/
theorem claim9_deepseek_witness :
    (("key".toList : LC) ≠ []) ∧
    ((⟨"deepseek-chat".toList, 6 / 10, 9 / 10, false⟩ : DsPayload).temperature = 6 / 10 ∧
     (⟨"deepseek-chat".toList, 6 / 10, 9 / 10, false⟩ : DsPayload).topP = 9 / 10 ∧
     (⟨Json.str ("hi".toList), none⟩ : DsResult).context = none) :=
  ⟨by decide,
   (claim9_deepseek ("key".toList) none ("deepseek-chat".toList)
      (Json.obj [("choices".toList,
        Json.arr [Json.obj [("message".toList,
          Json.obj [("content".toList, Json.str ("hi".toList))])]])])
      (⟨"deepseek-chat".toList, 6 / 10, 9 / 10, false⟩,
       ⟨Json.str ("hi".toList), none⟩) 0 0 (by decide)).2.1 rfl⟩

/-- Claim C10: a chat turn whose generation call fails leaves the
session store exactly as it was, and the request surfaces an error
rather than a success. -/
theorem claim10_chat_atomic (st : Store) (sid : LC) (prompt : LC) (e : Unit) :
    (sessionChat st sid prompt (.error e)).2 = st ∧
    ∀ r : SessionChatRes, (sessionChat st sid prompt (.error e)).1 ≠ .ok r := by
  cases h : storeFind st sid <;> simp [sessionChat, h]

/-- Claim C8, counterexample: the shadow feedback endpoint does not
compose its prompt according to the normalised target language; a
request with target language en receives exactly the same prompt as a
request with target language zh, and that prompt is the Chinese
comparison prompt. -/
theorem claim8_counterexample :
    shadowFeedbackPrompt ("Hi".toList) ("Hi there".toList) ("en".toList)
      = shadowFeedbackPrompt ("Hi".toList) ("Hi there".toList) ("zh".toList) ∧
    ("参考句子: ".toList).isPrefixOf
      (shadowFeedbackPrompt ("Hi".toList) ("Hi there".toList) ("en".toList)) = true :=
  ⟨rfl, by decide⟩

/-- Claim C8, amended: the language code is accepted case-insensitively
as en or zh and anything else normalises to en; the theme endpoint
returns the normalised language; the substitution and expansion
feedback prompts depend on the target language only through its
normalisation, with the zh prompt opening in Chinese and every other
language receiving the English prompt; the shadow feedback prompt
ignores the target language entirely and is always the Chinese
comparison prompt. -/
theorem claim8_language (s : LC) :
    (normLang s = "en".toList ∨ normLang s = "zh".toList) ∧
    ((pyLower s = "en".toList ∨ pyLower s = "zh".toList) → normLang s = pyLower s) ∧
    (∀ (language theme : LC) (count : Nat) (ir ar : Except Unit LC) (res : ThemeRes),
      resolveTheme language theme count ir ar = .ok res → res.language = normLang language) ∧
    (∀ (b t : LC) (sl : List SubSlot) (tl : LC),
      substitutionFeedbackPrompt b t sl tl = substitutionFeedbackPrompt b t sl (normLang tl)) ∧
    (∀ (sd t : LC) (sc : List LC) (tl : LC),
      expansionFeedbackPrompt sd t sc tl = expansionFeedbackPrompt sd t sc (normLang tl)) ∧
    (∀ (r t tlA tlB : LC), shadowFeedbackPrompt r t tlA = shadowFeedbackPrompt r t tlB) ∧
    ("基准句: ".toList).isPrefixOf (substitutionFeedbackPrompt [] [] [] ("ZH".toList)) = true ∧
    ("Base sentence: ".toList).isPrefixOf (substitutionFeedbackPrompt [] [] [] ("fr".toList)) = true := by
  refine ⟨?_, ?_, ?_, ?_, ?_, ?_, ?_, ?_⟩
  · by_cases h1 : pyLower s = "en".toList
    · left; simp [normLang, h1]
    · by_cases h2 : pyLower s = "zh".toList
      · right; simp [normLang, h2]
      · left
        simp only [normLang]
        rw [if_neg (by rw [not_or]; exact ⟨h1, h2⟩)]
  · intro h
    rcases h with h | h <;> simp [normLang, h]
  · intro language theme count ir ar res h
    unfold resolveTheme at h
    repeat' split at h
    all_goals first
      | exact Except.noConfusion h
      | (injection h with h2; subst h2; rfl)
  · intro b t sl tl
    simp only [substitutionFeedbackPrompt, normLang_idem]
  · intro sd t sc tl
    simp only [expansionFeedbackPrompt, normLang_idem]
  · intro r t tlA tlB
    rfl
  · decide
  · decide

/-- Claim C8, witness at concrete inputs. -/
theorem claim8_language_witness :
    (pyLower ("EN".toList) = "en".toList ∨ pyLower ("EN".toList) = "zh".toList) ∧
    normLang ("EN".toList) = pyLower ("EN".toList) ∧
    (⟨"en".toList, "t".toList, [], "i".toList⟩ : ThemeRes).language = normLang ("EN".toList) :=
  ⟨Or.inl (by decide),
   (claim8_language ("EN".toList)).2.1 (Or.inl (by decide)),
   (claim8_language ("EN".toList)).2.2.1 ("EN".toList) ("t".toList) 3
     (.ok ("i".toList)) (.ok ("oops".toList)) ⟨"en".toList, "t".toList, [], "i".toList⟩ rfl⟩

/-- Claim C2, counterexample: the shadow starter returns an empty
sentence when the backend yields empty text, and both the shadow and
the substitution starters surface a 502 gateway error on transport
failure, so not every start operation absorbs every backend failure
into a minimum-contract artifact. -/
theorem claim2_counterexample :
    shadowStart (.ok ([] : LC)) = .ok ⟨[], none⟩ ∧
    substitutionStart none (.error ()) (.ok ([] : LC)) = .error 502 ∧
    shadowStart (.error ()) = .error 502 :=
  ⟨rfl, rfl, rfl⟩

/-- Claim C2, amended: the expansion starter meets the minimum
contract, a non-empty seed and exactly the configured scaffold count,
on transport failure and on any response its parser rejects, empty
text and non-JSON garbage included; the substitution starter meets its
minimum contract, a non-empty base sentence and at most the configured
slot count, when both generation attempts return text that fails JSON
parsing; the substitution starter surfaces 502 on transport failure,
and so does the shadow starter, whose empty-text behaviour is the
counterexample. -/
theorem claim2_fallback_contract :
    (∀ d : Option LC, (expansionStart d (.error ())).1 ≠ [] ∧
       (expansionStart d (.error ())).2.length = scaffoldCountOfDiff d) ∧
    (∀ (d : Option LC) (t : LC), expansionParse (scaffoldCountOfDiff d) t = none →
       (expansionStart d (.ok t)).1 ≠ [] ∧
       (expansionStart d (.ok t)).2.length = scaffoldCountOfDiff d) ∧
    (∀ (d : Option LC) (t1 t2 : LC),
       jparse (pyStrip t1) = none → jparse (pyStrip t2) = none →
       ∃ art, substitutionStart d (.ok t1) (.ok t2) = .ok art ∧
         art.base_sentence ≠ [] ∧ art.slots.length ≤ slotCountOfDiff d) ∧
    (∀ (d : Option LC) (r2 : Except Unit LC),
       substitutionStart d (.error ()) r2 = .error 502) ∧
    (∀ d : Option LC, shadowStart (.error ()) = .error 502) := by
  refine ⟨?_, ?_, ?_, ?_, ?_⟩
  · intro d
    unfold expansionStart
    rcases scaffoldCount_cases d with h | h | h <;> rw [h] <;> exact ⟨by decide, by decide⟩
  · intro d t h
    unfold expansionStart
    have hgen : ∀ k : Nat, expansionParse k t = none →
        expansionCore k (.ok t) = expansionCore k (.error ()) := by
      intro k hk
      simp [expansionCore, hk]
    rcases scaffoldCount_cases d with hc | hc | hc <;>
      rw [hc] at h ⊢ <;> rw [hgen _ h] <;> exact ⟨by decide, by decide⟩
  · intro d t1 t2 h1 h2
    have hp1 := parseAttempt_jnone h1
    have hp2 := parseAttempt_jnone h2
    have hn := slotCount_pos d
    have hv1 : attemptValid (slotCountOfDiff d) t1 = false := by
      simp only [attemptValid, hp1]
      have h0 : (0 == slotCountOfDiff d) = false := beq_false_of_ne (by omega)
      simp [h0]
    have hv2 : attemptValid (slotCountOfDiff d) t2 = false := by
      simp only [attemptValid, hp2]
      have h0 : (0 == slotCountOfDiff d) = false := beq_false_of_ne (by omega)
      simp [h0]
    refine ⟨subFallback (slotCountOfDiff d) (firstLine (pyStrip t2)) [], ?_, ?_, ?_⟩
    · simp [substitutionStart, subCore, hv1, hv2, hp2]
    · simp only [subFallback]
      apply List.ne_nil_of_length_pos
      refine Nat.lt_of_lt_of_le ?_ (foldl_bracketAppend_length _ _)
      rw [List.length_pos]
      split
      · decide
      case isFalse hne => exact hne
    · simp only [subFallback]
      exact List.length_take_le _ _
  · intro d r2
    rfl
  · intro d
    rfl

/-- Claim C2, witness at concrete inputs. -/
theorem claim2_fallback_contract_witness :
    expansionParse (scaffoldCountOfDiff none) ("oops".toList) = none ∧
    (expansionStart none (.ok ("oops".toList))).1 ≠ [] ∧
    (expansionStart none (.ok ("oops".toList))).2.length = scaffoldCountOfDiff none ∧
    jparse (pyStrip ("oops".toList)) = none ∧
    (∃ art, substitutionStart none (.ok ("oops".toList)) (.ok ("oops".toList)) = .ok art ∧
       art.base_sentence ≠ [] ∧ art.slots.length ≤ slotCountOfDiff none) :=
  ⟨rfl,
   (claim2_fallback_contract.2.1 none ("oops".toList) rfl).1,
   (claim2_fallback_contract.2.1 none ("oops".toList) rfl).2,
   rfl,
   claim2_fallback_contract.2.2.1 none ("oops".toList) ("oops".toList) rfl rfl⟩

set_option maxRecDepth 10000 in
/-- Claim C7: across all anchor payloads, at most count cards are
kept, and every kept card has a non-empty phrase free of the literal
word phrase and a non-empty cue; the concrete well-formed three-card
payload yields exactly the three expected cards, the third cue drawn
from the difficulty-indexed fallback table, and malformed backend text
yields an empty card list with a successful response. -/
theorem claim7_theme_cards :
    (∀ (anchors : List Json) (count : Nat) (cards : List PhraseCardL),
       buildCards (anchors.take count) [] = .ok cards →
       cards.length ≤ count ∧
       ∀ c ∈ cards,
         c.phrase ≠ [] ∧ isSub ("phrase".toList) (pyLower c.phrase) = false ∧ c.cue ≠ []) ∧
    resolveTheme ("EN".toList) ("morning routine".toList) 3
        (.ok ("morning intent".toList))
        (.ok (("\x7b\"anchors\": [\x7b\"difficulty\": \"easy\", \"phrase\": \"Good morning team\", \"cue\": \"warm and upbeat\"\x7d, "
          ++ "\x7b\"difficulty\": \"medium\", \"phrase\": \"Ready for our quick sync\", \"cue\": \"calm and clear\"\x7d, "
          ++ "\x7b\"difficulty\": \"hard\", \"phrase\": \"Let us review yesterday decisions\"\x7d]\x7d").toList))
      = .ok ⟨"en".toList, "morning routine".toList,
          [⟨"Good morning team".toList, none, "warm and upbeat".toList, Json.str ("easy".toList)⟩,
           ⟨"Ready for our quick sync".toList, none, "calm and clear".toList, Json.str ("medium".toList)⟩,
           ⟨"Let us review yesterday decisions".toList, none, "Delivery: brisk and concise".toList, Json.str ("hard".toList)⟩],
          "morning intent".toList⟩ ∧
    resolveTheme ("en".toList) ("morning routine".toList) 3
        (.ok ("morning intent".toList)) (.ok ("oops not json".toList))
      = .ok ⟨"en".toList, "morning routine".toList, [], "morning intent".toList⟩ := by
  refine ⟨?_, rfl, rfl⟩
  intro anchors count cards h
  have hs := buildCards_sound _ _ _ h
  constructor
  · have h1 := hs.1
    have h2 := List.length_take_le count anchors
    simp only [List.length_nil] at h1
    omega
  · intro c hc
    rcases hs.2 c hc with hmem | hgood
    · exact absurd hmem (List.not_mem_nil c)
    · exact hgood

/-- Claim C7, witness at a concrete anchor list. -/
theorem claim7_theme_cards_witness :
    buildCards (([Json.obj [("phrase".toList, Json.str ("Hi there".toList))]].take 1)) []
      = .ok [⟨"Hi there".toList, none, "Delivery: clear and polite".toList, Json.null⟩] ∧
    ([⟨"Hi there".toList, none, "Delivery: clear and polite".toList, Json.null⟩] : List PhraseCardL).length ≤ 1 :=
  ⟨rfl,
   (claim7_theme_cards.1 [Json.obj [("phrase".toList, Json.str ("Hi there".toList))]] 1
     [⟨"Hi there".toList, none, "Delivery: clear and polite".toList, Json.null⟩] rfl).1⟩

/-- Claim C1, counterexample: with medium difficulty and a backend
response whose parsed slot label does not occur bracketed in the base
sentence, both attempts fail validation and the fallback keeps the
alien slot label and drops the second bracket label, so the bracket
labels are not the slot labels. -/
theorem claim1_counterexample :
    substitutionStart none
      (.ok (("\x7b\"base_sentence\": \"I like [a] and [b]\", \"slots\": "
        ++ "[\x7b\"label\": \"c\", \"options\": [\"x\", \"y\", \"z\"]\x7d]\x7d").toList))
      (.ok (("\x7b\"base_sentence\": \"I like [a] and [b]\", \"slots\": "
        ++ "[\x7b\"label\": \"c\", \"options\": [\"x\", \"y\", \"z\"]\x7d]\x7d").toList))
      = .ok ⟨"I like [a] and [b]".toList,
          [⟨"c".toList, ["x".toList, "y".toList, "z".toList]⟩,
           ⟨"a".toList, defaultOptions⟩]⟩ ∧
    findLabels ("I like [a] and [b]".toList) = ["a".toList, "b".toList] ∧
    ("c".toList) ∈ ([⟨"c".toList, ["x".toList, "y".toList, "z".toList]⟩,
        ⟨"a".toList, defaultOptions⟩] : List SubSlot).map SubSlot.label ∧
    ("c".toList) ∉ findLabels ("I like [a] and [b]".toList) :=
  ⟨rfl, by decide, by decide, by decide⟩

/-- Claim C1, amended: the difficulty table is easy 1, medium 2, hard
3, expert 4 case-insensitively with anything unrecognised treated as
medium, and whenever the two generation attempts fail validation and
the final attempt parses to no slots with a base sentence free of
opening brackets, empty or non-JSON text included, the fallback
artifact satisfies the bijection: the bracket labels of the sentence
are exactly the slot labels, each bracketed exactly once, and the slot
count equals the configured count. -/
theorem claim1_bijection (difficulty : Option LC) (t1 t2 b : LC)
    (h1 : attemptValid (slotCountOfDiff difficulty) t1 = false)
    (h2 : parseAttempt t2 = (b, []))
    (hb : '[' ∉ b) :
    (slotCountOfDiff (some ("easy".toList)) = 1 ∧
     slotCountOfDiff (some ("Medium".toList)) = 2 ∧
     slotCountOfDiff (some ("hard".toList)) = 3 ∧
     slotCountOfDiff (some ("EXPERT".toList)) = 4 ∧
     slotCountOfDiff (some ("peculiar".toList)) = 2 ∧
     slotCountOfDiff none = 2) ∧
    ∃ art, substitutionStart difficulty (.ok t1) (.ok t2) = .ok art ∧
      findLabels art.base_sentence = art.slots.map SubSlot.label ∧
      (art.slots.map SubSlot.label).Nodup ∧
      art.slots.length = slotCountOfDiff difficulty := by
  refine ⟨by decide, ?_⟩
  have hn := slotCount_pos difficulty
  have hv2 : attemptValid (slotCountOfDiff difficulty) t2 = false := by
    simp only [attemptValid, h2]
    have h0 : (0 == slotCountOfDiff difficulty) = false := beq_false_of_ne (by omega)
    simp [h0]
  have key : ∀ k : Nat, (k = 1 ∨ k = 2 ∨ k = 3 ∨ k = 4) →
      findLabels (subFallback k b []).base_sentence
        = ((subFallback k b []).slots.map SubSlot.label) ∧
      ((subFallback k b []).slots.map SubSlot.label).Nodup ∧
      (subFallback k b []).slots.length = k := by
    intro k hk
    by_cases hbnil : b = []
    · subst hbnil
      rcases hk with h | h | h | h <;> subst h <;> exact ⟨by decide, by decide, by decide⟩
    · rcases hk with h | h | h | h <;> subst h <;>
        rw [subFallback_clean _ b hb hbnil] <;>
        refine ⟨?_, ?_, ?_⟩ <;>
        dsimp only <;>
        first
          | (rw [findLabels_append hb]; decide)
          | decide
  obtain ⟨g1, g2, g3⟩ := key (slotCountOfDiff difficulty) (slotCount_cases difficulty)
  exact ⟨subFallback (slotCountOfDiff difficulty) b [],
    by simp [substitutionStart, subCore, h1, hv2, h2], g1, g2, g3⟩

/-- Claim C1, witness at concrete inputs. -/
theorem claim1_bijection_witness :
    attemptValid (slotCountOfDiff none) ("oops".toList) = false ∧
    parseAttempt ("oops".toList) = ("oops".toList, []) ∧
    ('[' ∉ ("oops".toList)) ∧
    ((slotCountOfDiff (some ("easy".toList)) = 1 ∧
      slotCountOfDiff (some ("Medium".toList)) = 2 ∧
      slotCountOfDiff (some ("hard".toList)) = 3 ∧
      slotCountOfDiff (some ("EXPERT".toList)) = 4 ∧
      slotCountOfDiff (some ("peculiar".toList)) = 2 ∧
      slotCountOfDiff none = 2) ∧
     ∃ art, substitutionStart none (.ok ("oops".toList)) (.ok ("oops".toList)) = .ok art ∧
       findLabels art.base_sentence = art.slots.map SubSlot.label ∧
       (art.slots.map SubSlot.label).Nodup ∧
       art.slots.length = slotCountOfDiff none) :=
  ⟨by decide, by decide, by decide,
   claim1_bijection none ("oops".toList) ("oops".toList) ("oops".toList)
     (by decide) (by decide) (by decide)⟩

end Orch

